import Mathlib

/-
Verification of the taskun replay engine (taskun_r08.py).

The definitions below are a shallow embedding of the streaming protocol
code in `run_playback`, the session-level setup and cleanup around it,
the supervisor logic of `_minimal_menu` after a replay child exits, and
the OLED menu paging rule of `_show_oled_menu`.  Machine bytes are
modelled as `Nat`, the serial channel as a list of byte groups written,
and `f.read(n)` on the recording file as a slice of a byte list.
-/

namespace Taskun

/-- Result of one `ser.read()` call in the streaming loop of
`run_playback`: `timeout` models an empty read (half-second timeout
elapsed), `byte b` models a one-byte read returning the byte `b`. -/
inductive SerialEv where
  | timeout
  | byte (b : Nat)
deriving DecidableEq

/-- External environment of one iteration of the streaming loop: the
serial read outcome, whether a SIGINT/SIGTERM was delivered before the
iteration (the handler sets the global `shutdown_requested`), and
whether the stop marker file exists when `check_stop_file` polls for
it during the iteration. -/
structure Env where
  ev : SerialEv
  sig : Bool
  stop_marker : Bool
deriving DecidableEq

/-- The mutable state of `run_playback` during the streaming loop:
the read cursor of the recording file `f`, the `latches` counter, the
residual-offset counter `extra`, the consecutive-timeout counter
`run_playback.timeout_count`, the global `shutdown_requested` flag,
and the list of byte groups written to the serial port inside the
loop (each `ser.write` call appends one group). -/
structure LoopState where
  pos : Nat
  latches : Nat
  extra : Nat
  timeout_count : Nat
  shutdown_requested : Bool
  written : List (List Nat)
deriving DecidableEq

/-- Terminal states of the streaming loop: `completed` is the
end-of-file break, `deviceError` the consecutive-timeout break, and
`interrupted` covers both the in-loop shutdown break and the while
condition turning false after a signal. -/
inductive Terminal where
  | completed
  | deviceError
  | interrupted
deriving DecidableEq

/-- `f.read(n)` when the file contents are `file` and the cursor is at
`pos`: up to `n` bytes starting at `pos`, empty at end of file. -/
def read_chunk (file : List Nat) (pos n : Nat) : List Nat :=
  (file.drop pos).take n

/-- Outcome of one iteration of the streaming loop: either the loop
continues with an updated state or it ends in a terminal state. -/
inductive StepRes where
  | cont (s : LoopState)
  | done (t : Terminal) (s : LoopState)
deriving DecidableEq

/-- The state carried by a step outcome. -/
def StepRes.state : StepRes → LoopState
  | .cont s => s
  | .done _ s => s

/-- One iteration of the `while not shutdown_requested` loop of
`run_playback` (taskun_r08.py lines 622 to 694).  The while condition
is checked first (a pending signal sets `shutdown_requested`); a
timeout increments `timeout_count` and breaks with a device error when
the counter exceeds 10 (the device-error break also leaves the file
cursor at the end, because the diagnostic prints call `f.seek(0, 2)`);
a received byte resets `timeout_count`; the byte `0x0F` serves a data
request (residual branch when `extra > 0`, otherwise a plain 60-byte
read, empty read breaks with end of file, short read is zero padded to
60 bytes, the response is the opcode prefixed to the payload, and
`latches` advances by 30); every non-timeout iteration then polls the
stop marker when `latches` is a multiple of 100 and breaks when
`shutdown_requested` is set. -/
def run_playback_step (file : List Nat) (e : Env) (s : LoopState) : StepRes :=
  let s0 := { s with shutdown_requested := s.shutdown_requested || e.sig }
  if s0.shutdown_requested then .done .interrupted s0
  else
    match e.ev with
    | .timeout =>
        let s1 := { s0 with timeout_count := s0.timeout_count + 1 }
        if s1.timeout_count > 10 then
          .done .deviceError { s1 with pos := file.length }
        else
          .cont s1
    | .byte b =>
        let s1 := { s0 with timeout_count := 0 }
        let served :=
          if b = 0x0F then
            if s1.extra > 0 then
              let inputs := read_chunk file s1.pos (60 - s1.extra * 2)
              let tmp := List.replicate (s1.extra * 2) 0 ++ inputs
              some { s1 with
                       pos := s1.pos + inputs.length,
                       written := s1.written ++ [0x0F :: tmp],
                       extra := 0,
                       latches := s1.latches + 30 }
            else
              let inputs := read_chunk file s1.pos 60
              if inputs = [] then none
              else
                let padded := inputs ++ List.replicate (60 - inputs.length) 0
                some { s1 with
                         pos := s1.pos + inputs.length,
                         written := s1.written ++ [0x0F :: padded],
                         latches := s1.latches + 30 }
          else some s1
        match served with
        | none => .done .completed s1
        | some s2 =>
            let s3 := if s2.latches % 100 == 0 && e.stop_marker then
                        { s2 with shutdown_requested := true }
                      else s2
            if s3.shutdown_requested then .done .interrupted s3
            else .cont s3

/-- Outcome of running the streaming loop on a finite schedule of
environments: either a terminal state was reached or the schedule ran
out with the loop still going. -/
inductive LoopOut where
  | finished (t : Terminal) (s : LoopState)
  | running (s : LoopState)
deriving DecidableEq

/-- The state carried by a loop outcome. -/
def LoopOut.state : LoopOut → LoopState
  | .finished _ s => s
  | .running s => s

/-- Run the streaming loop of `run_playback` over a finite schedule of
per-iteration environments. -/
def run_playback_loop (file : List Nat) : List Env → LoopState → LoopOut
  | [], s => .running s
  | e :: es, s =>
      match run_playback_step file e s with
      | .cont s' => run_playback_loop file es s'
      | .done t s' => .finished t s'

/-- The loop state at entry of the streaming loop: cursor at 0 (the
`skip` constant is 0, so the skip loop reads nothing), `latches` 0,
`extra` 0, timeout counter 0, no shutdown requested, nothing written
inside the loop yet. -/
def initial_state : LoopState :=
  { pos := 0, latches := 0, extra := 0, timeout_count := 0,
    shutdown_requested := false, written := [] }

/-- The fixed 7-byte start-of-playback configuration record written by
`run_playback` right before the streaming loop. -/
def start_command : List Nat := [0x01, 0x01, 0x02, 0x01, 0x00, 0x01, 0x00]

/-- Observable cleanup events of `run_playback` after the streaming
loop ends (taskun_r08.py lines 696 to 788), in execution order. -/
inductive PostEv where
  | reportStopped
  | reportSummary
  | closeStream
  | waitForButton
  | closeChannel
  | deviceReset
deriving DecidableEq, BEq

/-- The cleanup trace of `run_playback` after the streaming loop,
given whether the device-stopped diagnostic fires and whether
`shutdown_requested` is set: an optional device-stopped report, then
the playback summary, then `f.close()`, then (only when not shut
down) the wait for a button press, then the final reset write plus
`ser.close()`, then the `_reset_cy8ckit_device` procedure. -/
def post_trace (stopped shutdown : Bool) : List PostEv :=
  (bif stopped then [.reportStopped] else [])
    ++ [.reportSummary, .closeStream]
    ++ (bif shutdown then [] else [.waitForButton])
    ++ [.closeChannel, .deviceReset]

/-- Inputs determining one full run of `run_playback`: whether
`serial.Serial` opens, the one-byte reply to the `0xFF` ping (`none`
models an empty read on timeout), whether the recording file opens,
the recording file contents, and the per-iteration environments of
the streaming loop. -/
structure SessionCfg where
  serial_opens : Bool
  handshake_reply : Option Nat
  file_opens : Bool
  file : List Nat
  envs : List Env
deriving DecidableEq

/-- How a full `run_playback` call ended: the serial port failed to
open (exit code 2), the ping was not answered with `0xFF` (exit code
2, carrying the reply received), the recording file failed to open
(exit code 3), the streaming loop reached a terminal state, or the
environment schedule ran out with the loop still going. -/
inductive SessionResult where
  | serialOpenFail
  | deviceNotReady (got : Option Nat)
  | fileError
  | loopEnded (t : Terminal) (s : LoopState)
  | stillRunning (s : LoopState)
deriving DecidableEq

/-- The terminal state of a session result, when the loop ended. -/
def SessionResult.terminal : SessionResult → Option Terminal
  | .loopEnded t _ => some t
  | _ => none

/-- Whether the session result is a terminal state of the loop. -/
def SessionResult.loopEndedB : SessionResult → Bool
  | .loopEnded _ _ => true
  | _ => false

/-- Observable outcome of one full `run_playback` call: the result,
whether the recording file was ever opened, every byte group written
to the serial device channel in order, and the cleanup trace (empty
when the session aborted before the loop or is still running). -/
structure SessionOut where
  result : SessionResult
  file_opened : Bool
  writes : List (List Nat)
  post : List PostEv
deriving DecidableEq

/-- One full `run_playback` call (taskun_r08.py lines 556 to 788):
open the serial port; write the `0xFF` ping and read one byte with a
bounded timeout, aborting with device-not-ready unless the reply is
exactly `0xFF`; open the recording file, aborting with a file error
on failure; write the reset byte `0x00` and the start command; run
the streaming loop; when the loop ends, write the final reset byte
`0x00` before `ser.close()` and emit the cleanup trace. -/
def run_playback (cfg : SessionCfg) : SessionOut :=
  if !cfg.serial_opens then
    { result := .serialOpenFail, file_opened := false, writes := [], post := [] }
  else if cfg.handshake_reply ≠ some 0xFF then
    { result := .deviceNotReady cfg.handshake_reply, file_opened := false,
      writes := [[0xFF]], post := [] }
  else if !cfg.file_opens then
    { result := .fileError, file_opened := false, writes := [[0xFF]], post := [] }
  else
    match run_playback_loop cfg.file cfg.envs initial_state with
    | .finished t s =>
        { result := .loopEnded t s, file_opened := true,
          writes := [[0xFF], [0x00], start_command] ++ s.written ++ [[0x00]],
          post := post_trace
                    (!s.shutdown_requested && decide (s.pos < cfg.file.length))
                    s.shutdown_requested }
    | .running s =>
        { result := .stillRunning s, file_opened := true,
          writes := [[0xFF], [0x00], start_command] ++ s.written, post := [] }

/-- What the supervisor in `_minimal_menu` observes after a replay
child process has exited. -/
structure SupervisorOut where
  marker_deleted : Bool
  reset_invocations : Nat
deriving DecidableEq

/-- Number of `_reset_cy8ckit_device` invocations a session performs:
the cleanup trace of the child holds one per terminal loop exit and
none otherwise, and the supervisor performs none after the child
exits. -/
def count_resets (out : SessionOut) : Nat :=
  out.post.count .deviceReset

/-- The supervisor actions of `_minimal_menu` after the replay child
has exited (taskun_r08.py lines 508 to 523): it removes the stop
marker file if present and returns to the menu; it does not invoke
`_reset_cy8ckit_device` itself (the comment on line 516 defers the
reset to the child), so the device resets of the session are exactly
those in the child cleanup trace. -/
def supervisor_after_exit (child : SessionOut) : SupervisorOut :=
  { marker_deleted := true, reset_invocations := count_resets child }

/-- The OLED menu window size (`window_size = 8` in
`_show_oled_menu`). -/
def window_size : Nat := 8

/-- The window update of `_show_oled_menu` (taskun_r08.py lines 268
to 292) for a navigation step: `n` is the item count, `idx` the new
selected index, `cur` the current window start
(`_show_oled_menu.current_start_idx`).  Moving above the window snaps
to 0 within the first `window_size` items and otherwise to
`max 0 (idx - (window_size - 2))`; moving below the window snaps to
`max 0 (n - window_size)` within the last `window_size` items and
otherwise to `max 0 (idx - 1)`; an index inside the window leaves the
start unchanged. -/
def oled_window_start (n idx cur : Nat) : Nat :=
  if idx < cur then
    if idx < window_size then 0
    else max 0 (idx - (window_size - 2))
  else if cur + window_size ≤ idx then
    if n - window_size ≤ idx then max 0 (n - window_size)
    else max 0 (idx - 1)
  else cur

/-- A navigation direction in `_minimal_menu`. -/
inductive NavDir where
  | up
  | down
deriving DecidableEq

/-- The selection update of `_minimal_menu` on a navigation event
(taskun_r08.py lines 396 to 405): plus or minus one modulo the item
count (stated for a non-empty list; the code guards `if menu_items`). -/
def menu_navigate (n idx : Nat) : NavDir → Nat
  | .up => (idx + (n - 1)) % n
  | .down => (idx + 1) % n

/-- Position of the first occurrence of an event in a cleanup trace. -/
def trace_index (e : PostEv) : List PostEv → Option Nat
  | [] => none
  | x :: xs => if x = e then some 0 else (trace_index e xs).map (· + 1)

/-- Whether a cleanup trace closes both the recording stream and the
device channel strictly before reporting the playback summary. -/
def closed_before_summary (tr : List PostEv) : Bool :=
  match trace_index .reportSummary tr, trace_index .closeStream tr,
        trace_index .closeChannel tr with
  | some i, some j, some k => decide (j < i) && decide (k < i)
  | _, _, _ => false

/-- Whether a cleanup trace reports the summary first, then closes the
recording stream, then closes the device channel, then runs the device
reset procedure, in that order. -/
def summary_then_closes_then_reset (tr : List PostEv) : Bool :=
  match trace_index .reportSummary tr, trace_index .closeStream tr,
        trace_index .closeChannel tr, trace_index .deviceReset tr with
  | some i, some j, some k, some l =>
      decide (i < j) && decide (j < k) && decide (k < l)
  | _, _, _, _ => false

/-- Whether a step outcome is the end-of-file break. -/
def StepRes.isCompleted : StepRes → Bool
  | .done .completed _ => true
  | _ => false

/-- The terminal state of a loop outcome, if any. -/
def LoopOut.terminal : LoopOut → Option Terminal
  | .finished t _ => some t
  | .running _ => none

/-- An iteration environment where the device sends the data request
opcode `0x0F`, no signal arrives and no stop marker exists. -/
def data_request : Env :=
  { ev := .byte 0x0F, sig := false, stop_marker := false }

/-- Whether, starting from consecutive-timeout counter `tc`, every
run of consecutive timeouts in the schedule keeps the counter at 10
or below, counting a reset to zero at every successful read. -/
def timeouts_bounded : Nat → List Env → Bool
  | _, [] => true
  | tc, e :: es =>
      match e.ev with
      | .timeout => decide (tc + 1 ≤ 10) && timeouts_bounded (tc + 1) es
      | .byte _ => timeouts_bounded 0 es

/-- A session over a 120-byte recording whose single scheduled data
request is preceded by an interrupt signal. -/
def interrupted_session : SessionCfg :=
  { serial_opens := true, handshake_reply := some 0xFF, file_opens := true,
    file := List.replicate 120 1,
    envs := [{ ev := .byte 0x0F, sig := true, stop_marker := false }] }

/-- A session whose handshake succeeds but whose recording file fails
to open. -/
def file_error_session : SessionCfg :=
  { serial_opens := true, handshake_reply := some 0xFF, file_opens := false,
    file := [], envs := [] }

theorem step_completed_read_empty (file : List Nat) (e : Env) (s s' : LoopState)
    (h : run_playback_step file e s = .done .completed s') :
    read_chunk file s'.pos 60 = [] := by
  obtain ⟨ev, sig, stf⟩ := e
  unfold run_playback_step at h
  cases sig <;> cases hsd : s.shutdown_requested <;> cases ev <;> simp_all <;>
    (repeat' first
      | (split at h <;> simp_all)
      | (split_ifs at * <;> simp_all))
  all_goals (subst h; simp_all)

theorem loop_completed_read_empty (file : List Nat) (envs : List Env) :
    ∀ (s s' : LoopState),
      run_playback_loop file envs s = .finished .completed s' →
        read_chunk file s'.pos 60 = [] := by
  induction envs with
  | nil => intro s s' h; simp [run_playback_loop] at h
  | cons e es ih =>
      intro s s' h
      unfold run_playback_loop at h
      cases hstep : run_playback_step file e s with
      | cont s1 =>
          rw [hstep] at h
          exact ih _ _ h
      | done t s1 =>
          rw [hstep] at h
          simp only [LoopOut.finished.injEq] at h
          obtain ⟨ht, hs⟩ := h
          subst ht
          subst hs
          exact step_completed_read_empty file e s _ hstep

/-- C1: a streaming iteration ends in the Completed terminal state
exactly when no signal is pending, no residual offset is pending, and
the 60-byte read of the recording stream returns zero bytes; whenever
the loop ends Completed the read cursor of the final state sees an
empty 60-byte read; and on a 120-byte recording with three scheduled
data requests the loop performs exactly two request and response
exchanges and then ends Completed with the frame counter at 60. -/
theorem claim_C1 :
    (∀ (file : List Nat) (e : Env) (s : LoopState),
        StepRes.isCompleted (run_playback_step file e s) = true ↔
          s.shutdown_requested = false ∧ e.sig = false ∧ e.ev = .byte 0x0F
            ∧ s.extra = 0 ∧ read_chunk file s.pos 60 = [])
    ∧ (∀ (file : List Nat) (envs : List Env) (s s' : LoopState),
        run_playback_loop file envs s = .finished .completed s' →
          read_chunk file s'.pos 60 = [])
    ∧ (run_playback_loop (List.replicate 120 1) (List.replicate 3 data_request)
          initial_state).terminal = some .completed
    ∧ (run_playback_loop (List.replicate 120 1) (List.replicate 3 data_request)
          initial_state).state.latches = 60
    ∧ (run_playback_loop (List.replicate 120 1) (List.replicate 3 data_request)
          initial_state).state.written.length = 2 := by
  refine ⟨?_, loop_completed_read_empty, by decide, by decide, by decide⟩
  intro file e s
  obtain ⟨ev, sig, stf⟩ := e
  unfold run_playback_step StepRes.isCompleted
  cases sig <;> cases hsd : s.shutdown_requested <;> cases ev <;> simp_all <;>
    (repeat' first
      | (split <;> simp_all)
      | (split_ifs at * <;> simp_all))
  all_goals (intro hx0; omega)

theorem claim_C1_witness :
    StepRes.isCompleted (run_playback_step [] data_request initial_state) = true
    ∧ read_chunk [] initial_state.pos 60 = [] :=
  ⟨(claim_C1.1 [] data_request initial_state).mpr ⟨rfl, rfl, rfl, rfl, rfl⟩,
   claim_C1.2.1 [] [data_request] initial_state initial_state rfl⟩

/-- C2: when a data request is served while the read of the recording
stream returns a non-empty chunk of fewer than 60 bytes, the response
written to the device channel is exactly 61 bytes, namely the opcode
byte `0x0F` followed by the chunk zero padded with trailing zeros to
exactly 60 bytes. -/
theorem claim_C2 (file : List Nat) (e : Env) (s : LoopState)
    (hsd : s.shutdown_requested = false) (hsig : e.sig = false)
    (hev : e.ev = .byte 0x0F) (hx : s.extra = 0)
    (hne : read_chunk file s.pos 60 ≠ [])
    (hshort : (read_chunk file s.pos 60).length < 60) :
    (run_playback_step file e s).state.written
      = s.written ++ [0x0F :: (read_chunk file s.pos 60
          ++ List.replicate (60 - (read_chunk file s.pos 60).length) 0)]
    ∧ (0x0F :: (read_chunk file s.pos 60
          ++ List.replicate (60 - (read_chunk file s.pos 60).length) 0)).length = 61 := by
  constructor
  · obtain ⟨ev, sig, stf⟩ := e
    simp only at hev hsig
    subst hev
    subst hsig
    unfold run_playback_step StepRes.state
    simp_all <;>
      (repeat' first
        | (split <;> simp_all)
        | (split_ifs at * <;> simp_all))
  · simp only [List.length_cons, List.length_append, List.length_replicate]
    omega

theorem claim_C2_witness :
    initial_state.shutdown_requested = false ∧ data_request.sig = false
    ∧ data_request.ev = .byte 0x0F ∧ initial_state.extra = 0
    ∧ read_chunk [1, 2, 3] initial_state.pos 60 ≠ []
    ∧ (read_chunk [1, 2, 3] initial_state.pos 60).length < 60
    ∧ ((run_playback_step [1, 2, 3] data_request initial_state).state.written
        = initial_state.written ++ [0x0F :: (read_chunk [1, 2, 3] initial_state.pos 60
            ++ List.replicate (60 - (read_chunk [1, 2, 3] initial_state.pos 60).length) 0)]
      ∧ (0x0F :: (read_chunk [1, 2, 3] initial_state.pos 60
            ++ List.replicate (60 - (read_chunk [1, 2, 3] initial_state.pos 60).length) 0)).length
          = 61) :=
  ⟨rfl, rfl, rfl, rfl, by decide, by decide,
   claim_C2 [1, 2, 3] data_request initial_state rfl rfl rfl rfl (by decide) (by decide)⟩

/-- C3: the handshake writes the single probe byte `0xFF` and reads
one byte; when the reply is not exactly `0xFF` the session fails as
device-not-ready reporting whatever was received, the recording
stream is never opened, and the only bytes written to the device are
the probe itself, so zero bytes of recording data are written. -/
theorem claim_C3 (cfg : SessionCfg) (hso : cfg.serial_opens = true)
    (hhr : cfg.handshake_reply ≠ some 0xFF) :
    run_playback cfg
      = { result := .deviceNotReady cfg.handshake_reply, file_opened := false,
          writes := [[0xFF]], post := [] } := by
  unfold run_playback
  simp [hso, hhr]

theorem claim_C3_witness :
    ({ serial_opens := true, handshake_reply := some 0x00, file_opens := true,
       file := [1, 2], envs := [] } : SessionCfg).serial_opens = true
    ∧ ({ serial_opens := true, handshake_reply := some 0x00, file_opens := true,
         file := [1, 2], envs := [] } : SessionCfg).handshake_reply ≠ some 0xFF
    ∧ run_playback { serial_opens := true, handshake_reply := some 0x00,
                     file_opens := true, file := [1, 2], envs := [] }
        = { result := .deviceNotReady (some 0x00), file_opened := false,
            writes := [[0xFF]], post := [] } :=
  ⟨rfl, by decide,
   claim_C3 { serial_opens := true, handshake_reply := some 0x00, file_opens := true,
              file := [1, 2], envs := [] } rfl (by decide)⟩

/-- C8: when the handshake succeeded but the recording stream fails
to open, the session ends as a file error and aborts before any
device command: the session writes only the probe byte, so neither
the reset byte `0x00` nor the 7-byte start command reaches the
device channel. -/
theorem claim_C8 (cfg : SessionCfg) (hso : cfg.serial_opens = true)
    (hhr : cfg.handshake_reply = some 0xFF) (hfo : cfg.file_opens = false) :
    run_playback cfg
      = { result := .fileError, file_opened := false, writes := [[0xFF]], post := [] }
    ∧ [0x00] ∉ (run_playback cfg).writes
    ∧ start_command ∉ (run_playback cfg).writes := by
  have h : run_playback cfg
      = { result := .fileError, file_opened := false, writes := [[0xFF]], post := [] } := by
    unfold run_playback
    simp [hso, hhr, hfo]
  refine ⟨h, ?_, ?_⟩ <;> rw [h] <;> decide

theorem claim_C8_witness :
    file_error_session.serial_opens = true
    ∧ file_error_session.handshake_reply = some 0xFF
    ∧ file_error_session.file_opens = false
    ∧ (run_playback file_error_session
        = { result := .fileError, file_opened := false, writes := [[0xFF]], post := [] }
      ∧ [0x00] ∉ (run_playback file_error_session).writes
      ∧ start_command ∉ (run_playback file_error_session).writes) :=
  ⟨rfl, rfl, rfl, claim_C8 file_error_session rfl rfl rfl⟩

theorem step_deviceError_char (file : List Nat) (e : Env) (s s' : LoopState)
    (h : run_playback_step file e s = .done .deviceError s') :
    e.ev = .timeout ∧ 10 < s.timeout_count + 1 := by
  obtain ⟨ev, sig, stf⟩ := e
  unfold run_playback_step at h
  cases sig <;> cases hsd : s.shutdown_requested <;> cases ev <;> simp_all <;>
    (repeat' first
      | (split at h <;> simp_all)
      | (split_ifs at * <;> simp_all))

theorem step_cont_timeout_count (file : List Nat) (e : Env) (s s' : LoopState)
    (h : run_playback_step file e s = .cont s') :
    s'.timeout_count = match e.ev with
      | .timeout => s.timeout_count + 1
      | .byte _ => 0 := by
  obtain ⟨ev, sig, stf⟩ := e
  unfold run_playback_step at h
  cases sig <;> cases hsd : s.shutdown_requested <;> cases ev <;> simp_all <;>
    (repeat' first
      | (split at h <;> simp_all)
      | (split_ifs at * <;> simp_all))
  all_goals (subst h; simp_all)

theorem loop_bounded_no_deviceError (file : List Nat) :
    ∀ (envs : List Env) (s : LoopState),
      timeouts_bounded s.timeout_count envs = true →
      (run_playback_loop file envs s).terminal ≠ some .deviceError := by
  intro envs
  induction envs with
  | nil => intro s hb; simp [run_playback_loop, LoopOut.terminal]
  | cons e es ih =>
      intro s hb
      unfold run_playback_loop
      cases hstep : run_playback_step file e s with
      | cont s1 =>
          apply ih
          have hc := step_cont_timeout_count file e s s1 hstep
          unfold timeouts_bounded at hb
          cases hev : e.ev with
          | timeout =>
              rw [hev] at hb hc
              simp only [Bool.and_eq_true] at hb
              rw [hc]
              exact hb.2
          | byte b =>
              rw [hev] at hb hc
              rw [hc]
              exact hb
      | done t s1 =>
          cases t with
          | deviceError =>
              have hchar := step_deviceError_char file e s s1 hstep
              unfold timeouts_bounded at hb
              rw [hchar.1] at hb
              simp only [Bool.and_eq_true, decide_eq_true_eq] at hb
              omega
          | completed => simp [LoopOut.terminal]
          | interrupted => simp [LoopOut.terminal]

/-- C4: a read timeout increments the consecutive-timeout counter and
ends the streaming loop in a device error exactly when the counter
exceeds 10, that is on the 11th consecutive timeout; a successful
read of any byte resets the counter to zero; a device error can only
arise from a timeout that pushes the counter past 10; and a loop
whose schedule never lets the counter pass 10 between successful
reads never ends in a device error. -/
theorem claim_C4 :
    (∀ (file : List Nat) (stf : Bool) (s : LoopState),
        run_playback_step file { ev := .timeout, sig := false, stop_marker := stf }
            { s with shutdown_requested := false }
          = if s.timeout_count + 1 > 10 then
              .done .deviceError
                { s with shutdown_requested := false,
                         timeout_count := s.timeout_count + 1, pos := file.length }
            else
              .cont { s with shutdown_requested := false,
                             timeout_count := s.timeout_count + 1 })
    ∧ (∀ (file : List Nat) (b : Nat) (stf : Bool) (s : LoopState),
        (run_playback_step file { ev := .byte b, sig := false, stop_marker := stf }
            { s with shutdown_requested := false }).state.timeout_count = 0)
    ∧ (∀ (file : List Nat) (e : Env) (s s' : LoopState),
        run_playback_step file e s = .done .deviceError s' →
          e.ev = .timeout ∧ 10 < s.timeout_count + 1)
    ∧ (∀ (file : List Nat) (envs : List Env) (s : LoopState),
        timeouts_bounded s.timeout_count envs = true →
        (run_playback_loop file envs s).terminal ≠ some .deviceError) := by
  refine ⟨?_, ?_, step_deviceError_char, fun file => loop_bounded_no_deviceError file⟩
  · intro file stf s
    unfold run_playback_step
    split_ifs <;> simp_all
  · intro file b stf s
    unfold run_playback_step StepRes.state
    simp <;>
      (repeat' first
        | (split <;> simp_all)
        | (split_ifs at * <;> simp_all))

theorem claim_C4_witness :
    timeouts_bounded initial_state.timeout_count
        [{ ev := .timeout, sig := false, stop_marker := false }] = true
    ∧ (run_playback_loop [] [{ ev := .timeout, sig := false, stop_marker := false }]
          initial_state).terminal ≠ some .deviceError :=
  ⟨by decide,
   claim_C4.2.2.2 [] [{ ev := .timeout, sig := false, stop_marker := false }]
     initial_state (by decide)⟩

/-- C6: in any single iteration of the streaming loop, either nothing
is written and the frame counter `latches` is unchanged, or the
iteration served a `0x0F` data request, wrote exactly one response
and advanced `latches` by exactly 30; in particular `latches` never
decreases. -/
theorem claim_C6 (file : List Nat) (e : Env) (s : LoopState) :
    s.latches ≤ (run_playback_step file e s).state.latches
    ∧ (((run_playback_step file e s).state.written = s.written
          ∧ (run_playback_step file e s).state.latches = s.latches)
       ∨ (e.ev = .byte 0x0F
          ∧ (∃ r, (run_playback_step file e s).state.written = s.written ++ [r])
          ∧ (run_playback_step file e s).state.latches = s.latches + 30)) := by
  obtain ⟨ev, sig, stf⟩ := e
  unfold run_playback_step StepRes.state
  cases sig <;> cases hsd : s.shutdown_requested <;> cases ev <;> simp_all <;>
    (repeat' first
      | (split <;> simp_all)
      | (split_ifs at * <;> simp_all))

theorem step_preserves_extra (file : List Nat) (e : Env) (s : LoopState)
    (hx : s.extra = 0) :
    (run_playback_step file e s).state.extra = 0 := by
  obtain ⟨ev, sig, stf⟩ := e
  unfold run_playback_step StepRes.state
  cases sig <;> cases hsd : s.shutdown_requested <;> cases ev <;> simp_all <;>
    (repeat' first
      | (split <;> simp_all)
      | (split_ifs at * <;> simp_all))

theorem loop_preserves_extra (file : List Nat) :
    ∀ (envs : List Env) (s : LoopState), s.extra = 0 →
      (run_playback_loop file envs s).state.extra = 0 := by
  intro envs
  induction envs with
  | nil => intro s hx; simpa [run_playback_loop, LoopOut.state] using hx
  | cons e es ih =>
      intro s hx
      unfold run_playback_loop
      cases hstep : run_playback_step file e s with
      | cont s1 =>
          apply ih
          have := step_preserves_extra file e s hx
          rwa [hstep] at this
      | done t s1 =>
          have := step_preserves_extra file e s hx
          rwa [hstep] at this

/-- C10: the residual-offset counter `extra` is zero at loop entry,
stays zero across every iteration of the streaming loop from any
state where it is zero, and hence is zero in every state the loop
reaches from its entry state; consequently every response written by
an iteration with `extra` zero comes from the plain 60-byte read of
the main branch. -/
theorem claim_C10 :
    initial_state.extra = 0
    ∧ (∀ (file : List Nat) (e : Env) (s : LoopState), s.extra = 0 →
        (run_playback_step file e s).state.extra = 0)
    ∧ (∀ (file : List Nat) (e : Env) (s : LoopState), s.extra = 0 →
        (run_playback_step file e s).state.written = s.written
        ∨ (run_playback_step file e s).state.written
            = s.written ++ [0x0F :: (read_chunk file s.pos 60
                ++ List.replicate (60 - (read_chunk file s.pos 60).length) 0)])
    ∧ (∀ (file : List Nat) (envs : List Env),
        (run_playback_loop file envs initial_state).state.extra = 0) := by
  refine ⟨rfl, step_preserves_extra, ?_, fun file envs => loop_preserves_extra file envs _ rfl⟩
  intro file e s hx
  obtain ⟨ev, sig, stf⟩ := e
  unfold run_playback_step StepRes.state
  cases sig <;> cases hsd : s.shutdown_requested <;> cases ev <;> simp_all <;>
    (repeat' first
      | (split <;> simp_all)
      | (split_ifs at * <;> simp_all))

theorem claim_C10_witness :
    initial_state.extra = 0
    ∧ (run_playback_step [] data_request initial_state).state.extra = 0 :=
  ⟨rfl, claim_C10.2.1 [] data_request initial_state rfl⟩

/-- C5 counterexample: in a session interrupted by the cancellation
signal, the session does end interrupted, but the cleanup trace does
not close the recording stream and the device channel before the
summary is reported, contrary to the claim. -/
theorem claim_C5_counterexample :
    (run_playback interrupted_session).result.terminal = some .interrupted
    ∧ closed_before_summary (run_playback interrupted_session).post = false := by
  decide

/-- C5 (amended): once the cancellation signal is observed the loop
ends interrupted in that very iteration, the loop never continues
past an iteration in which the signal was seen, a stop-marker poll
that fires ends the iteration rather than continuing, and the cleanup
trace reports the summary first and only then closes the recording
stream, then the device channel, then runs the device reset. -/
theorem claim_C5_amended :
    (∀ (file : List Nat) (e : Env) (s : LoopState),
        e.sig = true ∨ s.shutdown_requested = true →
        run_playback_step file e s
          = .done .interrupted { s with shutdown_requested := true })
    ∧ (∀ (file : List Nat) (e : Env) (s s' : LoopState),
        run_playback_step file e s = .cont s' → s'.shutdown_requested = false)
    ∧ (∀ (file : List Nat) (b : Nat) (s s' : LoopState),
        run_playback_step file { ev := .byte b, sig := false, stop_marker := true } s
            = .cont s' →
          s'.latches % 100 ≠ 0)
    ∧ (∀ stopped shutdown : Bool,
        summary_then_closes_then_reset (post_trace stopped shutdown) = true) := by
  refine ⟨?_, ?_, ?_, by decide⟩
  · intro file e s h
    obtain ⟨ev, sig, stf⟩ := e
    rcases h with h | h <;> simp_all [run_playback_step]
  · intro file e s s' h
    obtain ⟨ev, sig, stf⟩ := e
    unfold run_playback_step at h
    cases sig <;> cases hsd : s.shutdown_requested <;> cases ev <;> simp_all <;>
      (repeat' first
        | (split at h <;> simp_all)
        | (split_ifs at * <;> simp_all))
    all_goals (subst h; simp_all)
  · intro file b s s' h
    unfold run_playback_step at h
    cases hsd : s.shutdown_requested <;> simp_all <;>
      (repeat' first
        | (split at h <;> simp_all)
        | (split_ifs at * <;> simp_all))
    all_goals (subst h; simp_all)

theorem claim_C5_amended_witness :
    run_playback_step [] { ev := .timeout, sig := true, stop_marker := false }
        initial_state
      = .done .interrupted { initial_state with shutdown_requested := true } :=
  claim_C5_amended.1 [] { ev := .timeout, sig := true, stop_marker := false }
    initial_state (Or.inl rfl)

theorem post_trace_one_reset (stopped shutdown : Bool) :
    (post_trace stopped shutdown).count .deviceReset = 1 := by
  cases stopped <;> cases shutdown <;> decide

/-- C7 counterexample: for a session whose recording file fails to
open, the supervisor still deletes the cancellation marker after the
child exits, but the device reset procedure is invoked zero times,
not exactly once as claimed. -/
theorem claim_C7_counterexample :
    (supervisor_after_exit (run_playback file_error_session)).marker_deleted = true
    ∧ (supervisor_after_exit (run_playback file_error_session)).reset_invocations = 0
    ∧ (supervisor_after_exit (run_playback file_error_session)).reset_invocations ≠ 1 := by
  decide

/-- C7 (amended): after the replay child exits the supervisor always
deletes the cancellation marker, and the device reset procedure is
invoked exactly once when the streaming loop of the child reached a
terminal state and zero times otherwise, in particular zero times
when the session aborted before streaming. -/
theorem claim_C7_amended (cfg : SessionCfg) :
    (supervisor_after_exit (run_playback cfg)).marker_deleted = true
    ∧ (supervisor_after_exit (run_playback cfg)).reset_invocations
        = if (run_playback cfg).result.loopEndedB then 1 else 0 := by
  refine ⟨rfl, ?_⟩
  obtain ⟨so, hr, fo, file, envs⟩ := cfg
  unfold run_playback supervisor_after_exit count_resets
  cases so <;> cases fo <;> split_ifs <;>
    (cases hlo : run_playback_loop file envs initial_state <;>
      simp_all [SessionResult.loopEndedB, post_trace_one_reset])

/-- C9: a single-step navigation moves the selection by one with
wraparound, and the window start is then updated by the asymmetric
paging rule of the OLED menu: snapping to 0 or near the bottom of the
new page when moving above the window, snapping to the last page or
near the top of the new page when moving below it, and staying put
when the new index is inside the window; afterwards the selected
index always lies inside the window. -/
theorem claim_C9 (n idx cur : Nat) (d : NavDir) (hn : 0 < n) (hidx : idx < n) :
    ∀ i, i = menu_navigate n idx d →
      i < n
      ∧ (i < cur →
          (i < window_size → oled_window_start n i cur = 0)
          ∧ (window_size ≤ i →
              oled_window_start n i cur = max 0 (i - (window_size - 2))))
      ∧ (cur + window_size ≤ i →
          (n - window_size ≤ i →
              oled_window_start n i cur = max 0 (n - window_size))
          ∧ (i < n - window_size → oled_window_start n i cur = max 0 (i - 1)))
      ∧ (cur ≤ i → i < cur + window_size → oled_window_start n i cur = cur)
      ∧ oled_window_start n i cur ≤ i
      ∧ i < oled_window_start n i cur + window_size := by
  intro i hi
  have hlt : i < n := by
    subst hi
    cases d <;> exact Nat.mod_lt _ hn
  refine ⟨hlt, ?_, ?_, ?_, ?_, ?_⟩ <;>
    (unfold oled_window_start window_size at *
     split_ifs <;> simp_all [Nat.zero_max] <;> omega)

theorem claim_C9_witness :
    menu_navigate 20 7 .down < 20
    ∧ oled_window_start 20 (menu_navigate 20 7 .down) 0 ≤ menu_navigate 20 7 .down
    ∧ menu_navigate 20 7 .down
        < oled_window_start 20 (menu_navigate 20 7 .down) 0 + window_size :=
  ⟨(claim_C9 20 7 0 .down (by decide) (by decide) _ rfl).1,
   (claim_C9 20 7 0 .down (by decide) (by decide) _ rfl).2.2.2.2.1,
   (claim_C9 20 7 0 .down (by decide) (by decide) _ rfl).2.2.2.2.2⟩

end Taskun
